import Mathlib

/-!
# Shallow embedding of `internal/k8s/client.go` (popeye)

The Go file defines a `Client` that lazily dials the api server (`Dial`, `DialOrDie`),
probes the discovery endpoint (`ClusterHasMetrics`), memoises two listings
(`ListPods`, `ListNS`) and classifies reserved namespaces (`isSystemNS`).

Stateful code is embedded by explicit state passing: every method takes the state
before the call and returns its Go results together with the state after the call.
The state carries the client and a chronological trace of the calls that left the
client (configuration resolution, handle construction, queries), so that "the
query is issued exactly once" is a statement about the trace.  What the outside
world answers is a parameter (`Cluster`); an answer may depend on the whole trace
so far, so two successive identical calls may be answered differently.
-/

namespace K8s

/-- A Go `error` value that is not nil, identified by its message. -/
abbrev GoError := String

/-- A Go slice of `α`: `none` is the nil slice, `some l` a slice with elements `l`. -/
abbrev Slice (α : Type) := Option (List α)

/-- Go `len` on a slice; the nil slice has length zero. -/
def len {α : Type} : Slice α → Nat
  | none => 0
  | some l => l.length

/-- The record `v1.Pod`; the client only reads the `Namespace` of its metadata. -/
structure Pod where
  Name : String
  Namespace : String
deriving DecidableEq, Repr

/-- The record `v1.Namespace`; the client only reads the `Name` of its metadata. -/
structure Namespace where
  Name : String
  UID : String
deriving DecidableEq, Repr

/-- The record `metav1.GroupVersionForDiscovery`. -/
structure GroupVersionForDiscovery where
  GroupVersion : String
  Version : String
deriving DecidableEq, Repr

/-- The record `metav1.APIGroup`. -/
structure APIGroup where
  Name : String
  Versions : List GroupVersionForDiscovery
deriving DecidableEq, Repr

/-- The record `metav1.APIGroupList`. -/
structure APIGroupList where
  Groups : List APIGroup
deriving DecidableEq, Repr

/-- The connection parameters `*rest.Config` produced by `Config.RESTConfig`. -/
structure RestConfig where
  Host : String
deriving DecidableEq, Repr

/-- A constructed `kubernetes.Clientset`; a `*Clientset` is an `Option Clientset`,
`none` being the nil pointer. -/
structure Clientset where
  id : Nat
deriving DecidableEq, Repr

/-- A value of the Go interface type `kubernetes.Interface`, the type of the field
`Client.api`.  It is either the nil interface, or a `*Clientset` (the only dynamic
type the file ever stores in it), whose pointer may itself be nil.  In Go an
interface value holding a nil pointer does not compare equal to `nil`. -/
inductive Interface where
  | nil
  | clientset (p : Option Clientset)
deriving DecidableEq, Repr

/-- A call that leaves the client. -/
inductive Event where
  | restConfig
  | newForConfig
  | serverGroups
  | podsList (ns : String)
  | namespacesList
  | namespacesGet (name : String)
deriving DecidableEq, Repr

/-- The part of `config.Config` the client consumes, taken as a parameter since the
`config` package is not part of the file: the active namespace scope and the
exclusion predicate.  (`RESTConfig` can fail for reasons outside the program and is
answered by the `Cluster`.) -/
structure Config where
  ActiveNamespace : String
  ExcludedNS : String → Bool

/-- The outside world, taken as a parameter: what each outgoing call answers, given
the trace of calls made before it.  `NewForConfig` has the Go signature
`(*Clientset, error)`: it yields a pointer and an error, either of which may be nil. -/
structure Cluster where
  RESTConfig : List Event → Except GoError RestConfig
  NewForConfig : List Event → RestConfig → Option Clientset × Option GoError
  ServerGroups : List Event → Clientset → Except GoError APIGroupList
  PodsList : List Event → Clientset → String → Except GoError (List Pod)
  NamespacesList : List Event → Clientset → Except GoError (List Namespace)
  NamespacesGet : List Event → Clientset → String → Except GoError Namespace

/-- The struct `Client`. -/
structure Client where
  Config : Config
  api : Interface
  pods : Slice Pod
  namespaces : Slice Namespace

/-- The client together with the trace of outgoing calls made so far. -/
structure State where
  c : Client
  trace : List Event

/-- Appends one outgoing call to the trace. -/
def State.record (s : State) (e : Event) : State :=
  { s with trace := s.trace ++ [e] }

/-- How a Go call ends: it returns, or it panics. -/
inductive Outcome (α : Type) where
  | ret (a : α)
  | panicked (msg : GoError)
deriving DecidableEq, Repr

/-- The variable `supportedMetricsAPIVersions`. -/
def supportedMetricsAPIVersions : List String := ["v1beta1"]

/-- The variable `systemNS`. -/
def systemNS : List String := ["kube-system", "kube-public"]

/-- The function `NewClient`. -/
def NewClient (config : Config) : Client :=
  { Config := config, api := Interface.nil, pods := none, namespaces := none }

/-- The method `Client.Dial`: returns the stored handle when `c.api != nil`; otherwise
resolves the connection parameters, then assigns the result of `NewForConfig` to
`c.api` and only afterwards looks at the error. -/
def Dial (k : Cluster) (s : State) : (Interface × Option GoError) × State :=
  if s.c.api ≠ Interface.nil then
    ((s.c.api, none), s)
  else
    let s1 := s.record Event.restConfig
    match k.RESTConfig s.trace with
    | Except.error err => ((Interface.nil, some err), s1)
    | Except.ok cfg =>
      let s2 := s1.record Event.newForConfig
      let r := k.NewForConfig s1.trace cfg
      let s3 : State := { s2 with c := { s2.c with api := Interface.clientset r.1 } }
      match r.2 with
      | some err => ((Interface.nil, some err), s3)
      | none => ((s3.c.api, none), s3)

/-- The method `Client.DialOrDie`: panics with the error of `Dial`. -/
def DialOrDie (k : Cluster) (s : State) : Outcome Interface × State :=
  match Dial k s with
  | ((_, some err), s1) => (Outcome.panicked err, s1)
  | ((client, none), s1) => (Outcome.ret client, s1)

/-- The innermost loop of `ClusterHasMetrics`, over `supportedMetricsAPIVersions`. -/
def matchSupported (version : String) : List String → Bool
  | [] => false
  | supportedVersion :: rest =>
    if version = supportedVersion then true else matchSupported version rest

/-- The middle loop of `ClusterHasMetrics`, over the versions of one group. -/
def scanVersions : List GroupVersionForDiscovery → Bool
  | [] => false
  | version :: rest =>
    if matchSupported version.Version supportedMetricsAPIVersions then true
    else scanVersions rest

/-- The outer loop of `ClusterHasMetrics`, over the discovered groups; `groupName` is
the constant `metricsapi.GroupName`. -/
def scanGroups (groupName : String) : List APIGroup → Bool
  | [] => false
  | discoveredAPIGroup :: rest =>
    if discoveredAPIGroup.Name ≠ groupName then scanGroups groupName rest
    else if scanVersions discoveredAPIGroup.Versions then true
    else scanGroups groupName rest

/-- The method `Client.ClusterHasMetrics`; `groupName` is the constant
`metricsapi.GroupName` of the metrics library.  A handle whose pointer is nil has
no discovery client, and calling `ServerGroups` through it panics. -/
def ClusterHasMetrics (groupName : String) (k : Cluster) (s : State) :
    Outcome Bool × State :=
  match Dial k s with
  | ((_, some _), s1) => (Outcome.ret false, s1)
  | ((srv, none), s1) =>
    match srv with
    | Interface.clientset (some cs) =>
      let s2 := s1.record Event.serverGroups
      match k.ServerGroups s1.trace cs with
      | Except.error _ => (Outcome.ret false, s2)
      | Except.ok apiGroups => (Outcome.ret (scanGroups groupName apiGroups.Groups), s2)
    | _ => (Outcome.panicked "invalid memory address or nil pointer dereference", s1)

/-- The filtering loop of `ListPods`: starts from an empty slice and appends every
item whose namespace is not excluded. -/
def keepPods (cfg : Config) (items : List Pod) : List Pod :=
  items.foldl (fun acc po => if cfg.ExcludedNS po.Namespace then acc else acc ++ [po]) []

/-- The filtering loop of `ListNS`: starts from an empty slice and appends every
item whose name is not excluded. -/
def keepNamespaces (cfg : Config) (items : List Namespace) : List Namespace :=
  items.foldl (fun acc ns => if cfg.ExcludedNS ns.Name then acc else acc ++ [ns]) []

/-- The method `Client.ListPods`.  Calling `CoreV1` through a handle whose pointer is
nil panics. -/
def ListPods (k : Cluster) (s : State) : Outcome (Slice Pod × Option GoError) × State :=
  if len s.c.pods ≠ 0 then
    (Outcome.ret (s.c.pods, none), s)
  else
    let ns := s.c.Config.ActiveNamespace
    match DialOrDie k s with
    | (Outcome.panicked msg, s1) => (Outcome.panicked msg, s1)
    | (Outcome.ret (Interface.clientset (some cs)), s1) =>
      let s2 := s1.record (Event.podsList ns)
      match k.PodsList s1.trace cs ns with
      | Except.error err => (Outcome.ret (none, some err), s2)
      | Except.ok items =>
        let pods : Slice Pod := some (keepPods s2.c.Config items)
        (Outcome.ret (pods, none), { s2 with c := { s2.c with pods := pods } })
    | (Outcome.ret _, s1) =>
      (Outcome.panicked "invalid memory address or nil pointer dereference", s1)

/-- The method `Client.ListNS`.  Calling `CoreV1` through a handle whose pointer is
nil panics. -/
def ListNS (k : Cluster) (s : State) :
    Outcome (Slice Namespace × Option GoError) × State :=
  if len s.c.namespaces ≠ 0 then
    (Outcome.ret (s.c.namespaces, none), s)
  else
    let ns := s.c.Config.ActiveNamespace
    match DialOrDie k s with
    | (Outcome.panicked msg, s1) => (Outcome.panicked msg, s1)
    | (Outcome.ret (Interface.clientset (some cs)), s1) =>
      if ns = "" then
        let s2 := s1.record Event.namespacesList
        match k.NamespacesList s1.trace cs with
        | Except.error err => (Outcome.ret (none, some err), s2)
        | Except.ok items =>
          let namespaces : Slice Namespace := some (keepNamespaces s2.c.Config items)
          (Outcome.ret (namespaces, none),
            { s2 with c := { s2.c with namespaces := namespaces } })
      else
        let s2 := s1.record (Event.namespacesGet ns)
        match k.NamespacesGet s1.trace cs ns with
        | Except.error err => (Outcome.ret (none, some err), s2)
        | Except.ok n =>
          let namespaces : Slice Namespace := some (keepNamespaces s2.c.Config [n])
          (Outcome.ret (namespaces, none),
            { s2 with c := { s2.c with namespaces := namespaces } })
    | (Outcome.ret _, s1) =>
      (Outcome.panicked "invalid memory address or nil pointer dereference", s1)

/-- The function `isSystemNS`, with its loop over a list of reserved names. -/
def isSystemNSIn (ns : String) : List String → Bool
  | [] => false
  | n :: rest => if n = ns then true else isSystemNSIn ns rest

/-- The function `isSystemNS`. -/
def isSystemNS (ns : String) : Bool :=
  isSystemNSIn ns systemNS

/-- Number of pod list queries in a trace. -/
def podQueries (t : List Event) : Nat :=
  t.countP (fun e => match e with | Event.podsList _ => true | _ => false)

/-- Number of namespace queries (cluster-wide list or single get) in a trace. -/
def nsQueries (t : List Event) : Nat :=
  t.countP (fun e => match e with
    | Event.namespacesList => true
    | Event.namespacesGet _ => true
    | _ => false)

/-- Number of cluster-wide namespace list queries in a trace. -/
def nsListQueries (t : List Event) : Nat :=
  t.countP (fun e => match e with | Event.namespacesList => true | _ => false)

/-- Number of connector invocations in a trace: connection-parameter resolutions. -/
def resolveCalls (t : List Event) : Nat :=
  t.countP (fun e => match e with | Event.restConfig => true | _ => false)

/-- Number of connector invocations in a trace: handle constructions. -/
def constructCalls (t : List Event) : Nat :=
  t.countP (fun e => match e with | Event.newForConfig => true | _ => false)

/-! ## Concrete inputs -/

/-- A configuration with no namespace scope that excludes namespace `b` only. -/
def cfgExcludeB : Config :=
  { ActiveNamespace := "", ExcludedNS := fun ns => decide (ns = "b") }

/-- A configuration scoped to namespace `foo` that excludes namespace `b` only. -/
def cfgScopedFoo : Config :=
  { ActiveNamespace := "foo", ExcludedNS := fun ns => decide (ns = "b") }

/-- A configuration scoped to namespace `ghost` that excludes namespace `b` only. -/
def cfgScopedGhost : Config :=
  { ActiveNamespace := "ghost", ExcludedNS := fun ns => decide (ns = "b") }

/-- A configuration with no namespace scope and no exclusion. -/
def cfgKeepAll : Config :=
  { ActiveNamespace := "", ExcludedNS := fun _ => false }

/-- A cluster that answers every call: pods in namespaces `a`, `b`, `c`, the
namespaces `a`, `b`, `c` and `foo`, and a metrics group at version `v1beta1`. -/
def healthyCluster : Cluster where
  RESTConfig := fun _ => Except.ok ⟨"https://api.example:6443"⟩
  NewForConfig := fun _ _ => (some ⟨1⟩, none)
  ServerGroups := fun _ _ => Except.ok
    ⟨[⟨"apps", [⟨"apps/v1", "v1"⟩]⟩,
      ⟨"metrics.k8s.io", [⟨"metrics.k8s.io/v1beta1", "v1beta1"⟩]⟩]⟩
  PodsList := fun _ _ _ => Except.ok [⟨"p1", "a"⟩, ⟨"p2", "b"⟩, ⟨"p3", "c"⟩, ⟨"p4", "a"⟩]
  NamespacesList := fun _ _ => Except.ok [⟨"a", "u1"⟩, ⟨"b", "u2"⟩, ⟨"c", "u3"⟩, ⟨"foo", "u4"⟩]
  NamespacesGet := fun _ _ name =>
    if name = "foo" then Except.ok ⟨"foo", "u4"⟩ else Except.error "namespaces not found"

/-- A cluster whose listings are empty when first queried and hold one item when
queried again. -/
def growingCluster : Cluster where
  RESTConfig := fun _ => Except.ok ⟨"https://api.example:6443"⟩
  NewForConfig := fun _ _ => (some ⟨1⟩, none)
  ServerGroups := fun _ _ => Except.ok ⟨[]⟩
  PodsList := fun t _ _ =>
    if podQueries t = 0 then Except.ok [] else Except.ok [⟨"web", "a"⟩]
  NamespacesList := fun t _ =>
    if nsQueries t = 0 then Except.ok [] else Except.ok [⟨"a", "u1"⟩]
  NamespacesGet := fun _ _ _ => Except.error "namespaces not found"

/-- A cluster that accepts the connection and refuses every query. -/
def refusingCluster : Cluster where
  RESTConfig := fun _ => Except.ok ⟨"https://api.example:6443"⟩
  NewForConfig := fun _ _ => (some ⟨1⟩, none)
  ServerGroups := fun _ _ => Except.error "service unavailable"
  PodsList := fun _ _ _ => Except.error "pods is forbidden"
  NamespacesList := fun _ _ => Except.error "namespaces is forbidden"
  NamespacesGet := fun _ _ _ => Except.error "namespaces not found"

/-- An environment in which the connection parameters resolve and the construction
of the handle fails, `NewForConfig` returning a nil pointer and an error. -/
def brokenDialCluster : Cluster where
  RESTConfig := fun _ => Except.ok ⟨"https://api.example:6443"⟩
  NewForConfig := fun _ _ => (none, some "invalid configuration")
  ServerGroups := fun _ _ => Except.ok ⟨[]⟩
  PodsList := fun _ _ _ => Except.ok []
  NamespacesList := fun _ _ => Except.ok []
  NamespacesGet := fun _ _ _ => Except.error "namespaces not found"

/-- The state of a client just built by `NewClient`, before any outgoing call. -/
def freshState (config : Config) : State :=
  { c := NewClient config, trace := [] }

/-! ## Helper lemmas -/

theorem foldl_keep {α : Type} (p : α → Bool) (items : List α) :
    ∀ acc : List α,
      items.foldl (fun acc x => if p x then acc else acc ++ [x]) acc
        = acc ++ items.filter (fun x => !p x) := by
  induction items with
  | nil => intro acc; simp
  | cons x xs ih =>
    intro acc
    simp only [List.foldl_cons, List.filter_cons]
    rw [ih]
    cases hx : p x <;> simp

theorem keepPods_eq_filter (cfg : Config) (items : List Pod) :
    keepPods cfg items = items.filter (fun po => !cfg.ExcludedNS po.Namespace) := by
  unfold keepPods
  rw [foldl_keep (fun po => cfg.ExcludedNS po.Namespace) items []]
  simp

theorem keepNamespaces_eq_filter (cfg : Config) (items : List Namespace) :
    keepNamespaces cfg items = items.filter (fun ns => !cfg.ExcludedNS ns.Name) := by
  unfold keepNamespaces
  rw [foldl_keep (fun ns => cfg.ExcludedNS ns.Name) items []]
  simp

theorem Dial_held (k : Cluster) (s : State) (h : s.c.api ≠ Interface.nil) :
    Dial k s = ((s.c.api, none), s) := by
  unfold Dial
  rw [if_pos h]

theorem Dial_ok (k : Cluster) (s s1 : State) (h : Interface)
    (hd : Dial k s = ((h, none), s1)) :
    s1.c.api = h ∧ h ≠ Interface.nil ∧ s1.c.Config = s.c.Config ∧
      s1.c.pods = s.c.pods ∧ s1.c.namespaces = s.c.namespaces := by
  unfold Dial at hd
  split at hd
  · next hh =>
    simp only [Prod.mk.injEq] at hd
    obtain ⟨⟨rfl, -⟩, rfl⟩ := hd
    exact ⟨rfl, hh, rfl, rfl, rfl⟩
  · split at hd
    · simp at hd
    · simp only at hd
      split at hd
      · simp at hd
      · simp only [Prod.mk.injEq] at hd
        obtain ⟨⟨rfl, -⟩, rfl⟩ := hd
        simp [State.record]

theorem DialOrDie_ret (k : Cluster) (s s1 : State) (h : Interface)
    (hd : DialOrDie k s = (Outcome.ret h, s1)) : Dial k s = ((h, none), s1) := by
  unfold DialOrDie at hd
  split at hd
  · simp at hd
  · next client s2 heq =>
    simp only [Prod.mk.injEq, Outcome.ret.injEq] at hd
    obtain ⟨rfl, rfl⟩ := hd
    exact heq

theorem Dial_frame (k : Cluster) (s : State) :
    (Dial k s).2.c.Config = s.c.Config ∧ (Dial k s).2.c.pods = s.c.pods ∧
      (Dial k s).2.c.namespaces = s.c.namespaces := by
  unfold Dial
  split
  · exact ⟨rfl, rfl, rfl⟩
  · split
    · exact ⟨rfl, rfl, rfl⟩
    · simp only
      split <;> exact ⟨rfl, rfl, rfl⟩

theorem Dial_countP (k : Cluster) (s : State) (p : Event → Bool)
    (h1 : p Event.restConfig = false) (h2 : p Event.newForConfig = false) :
    (Dial k s).2.trace.countP p = s.trace.countP p := by
  unfold Dial
  split
  · rfl
  · split
    · simp [State.record, List.countP_append, h1]
    · simp only
      split <;> simp [State.record, List.countP_append, h1, h2]

theorem DialOrDie_snd (k : Cluster) (s : State) : (DialOrDie k s).2 = (Dial k s).2 := by
  unfold DialOrDie
  split <;> next heq => rw [heq]

theorem ListPods_query (k : Cluster) (s s1 : State) (cs : Clientset)
    (hc : len s.c.pods = 0)
    (hd : DialOrDie k s = (Outcome.ret (Interface.clientset (some cs)), s1)) :
    ListPods k s =
      match k.PodsList s1.trace cs s.c.Config.ActiveNamespace with
      | Except.error err =>
        (Outcome.ret (none, some err), s1.record (Event.podsList s.c.Config.ActiveNamespace))
      | Except.ok items =>
        (Outcome.ret (some (keepPods s.c.Config items), none),
          { c := { s1.c with pods := some (keepPods s.c.Config items) },
            trace := s1.trace ++ [Event.podsList s.c.Config.ActiveNamespace] }) := by
  have hcfg := (Dial_ok k s s1 _ (DialOrDie_ret k s s1 _ hd)).2.2.1
  unfold ListPods
  rw [if_neg (by simp [hc])]
  simp only [hd]
  cases k.PodsList s1.trace cs s.c.Config.ActiveNamespace <;> simp [State.record, hcfg]

theorem ListNS_query (k : Cluster) (s s1 : State) (cs : Clientset)
    (hc : len s.c.namespaces = 0)
    (hd : DialOrDie k s = (Outcome.ret (Interface.clientset (some cs)), s1)) :
    ListNS k s =
      if s.c.Config.ActiveNamespace = "" then
        match k.NamespacesList s1.trace cs with
        | Except.error err => (Outcome.ret (none, some err), s1.record Event.namespacesList)
        | Except.ok items =>
          (Outcome.ret (some (keepNamespaces s.c.Config items), none),
            { c := { s1.c with namespaces := some (keepNamespaces s.c.Config items) },
              trace := s1.trace ++ [Event.namespacesList] })
      else
        match k.NamespacesGet s1.trace cs s.c.Config.ActiveNamespace with
        | Except.error err =>
          (Outcome.ret (none, some err),
            s1.record (Event.namespacesGet s.c.Config.ActiveNamespace))
        | Except.ok n =>
          (Outcome.ret (some (keepNamespaces s.c.Config [n]), none),
            { c := { s1.c with namespaces := some (keepNamespaces s.c.Config [n]) },
              trace := s1.trace ++ [Event.namespacesGet s.c.Config.ActiveNamespace] }) := by
  have hcfg := (Dial_ok k s s1 _ (DialOrDie_ret k s s1 _ hd)).2.2.1
  unfold ListNS
  rw [if_neg (by simp [hc])]
  simp only [hd]
  split
  · cases k.NamespacesList s1.trace cs <;> simp [State.record, hcfg]
  · cases k.NamespacesGet s1.trace cs s.c.Config.ActiveNamespace <;> simp [State.record, hcfg]

theorem ListPods_trace (k : Cluster) (s s1 : State) (cs : Clientset)
    (hc : len s.c.pods = 0)
    (hd : DialOrDie k s = (Outcome.ret (Interface.clientset (some cs)), s1)) :
    (ListPods k s).2.trace = s1.trace ++ [Event.podsList s.c.Config.ActiveNamespace] := by
  rw [ListPods_query k s s1 cs hc hd]
  cases k.PodsList s1.trace cs s.c.Config.ActiveNamespace <;> rfl

theorem ListNS_trace (k : Cluster) (s s1 : State) (cs : Clientset)
    (hc : len s.c.namespaces = 0)
    (hd : DialOrDie k s = (Outcome.ret (Interface.clientset (some cs)), s1)) :
    (ListNS k s).2.trace = s1.trace ++
      [if s.c.Config.ActiveNamespace = "" then Event.namespacesList
        else Event.namespacesGet s.c.Config.ActiveNamespace] := by
  rw [ListNS_query k s s1 cs hc hd]
  split
  · cases k.NamespacesList s1.trace cs <;> rfl
  · cases k.NamespacesGet s1.trace cs s.c.Config.ActiveNamespace <;> rfl

theorem DialOrDie_held (k : Cluster) (s : State) (h : s.c.api ≠ Interface.nil) :
    DialOrDie k s = (Outcome.ret s.c.api, s) := by
  unfold DialOrDie
  rw [Dial_held k s h]

theorem Dial_podQueries (k : Cluster) (s : State) :
    podQueries (Dial k s).2.trace = podQueries s.trace :=
  Dial_countP k s _ rfl rfl

theorem Dial_nsQueries (k : Cluster) (s : State) :
    nsQueries (Dial k s).2.trace = nsQueries s.trace :=
  Dial_countP k s _ rfl rfl

theorem Dial_nsListQueries (k : Cluster) (s : State) :
    nsListQueries (Dial k s).2.trace = nsListQueries s.trace :=
  Dial_countP k s _ rfl rfl

theorem podQueries_snoc (t : List Event) (ns : String) :
    podQueries (t ++ [Event.podsList ns]) = podQueries t + 1 := by
  simp [podQueries, List.countP_append]

theorem nsQueries_snoc_list (t : List Event) :
    nsQueries (t ++ [Event.namespacesList]) = nsQueries t + 1 := by
  simp [nsQueries, List.countP_append]

theorem nsQueries_snoc_get (t : List Event) (name : String) :
    nsQueries (t ++ [Event.namespacesGet name]) = nsQueries t + 1 := by
  simp [nsQueries, List.countP_append]

theorem nsListQueries_snoc_get (t : List Event) (name : String) :
    nsListQueries (t ++ [Event.namespacesGet name]) = nsListQueries t := by
  simp [nsListQueries, List.countP_append]

theorem matchSupported_iff (version : String) (l : List String) :
    matchSupported version l = true ↔ version ∈ l := by
  induction l with
  | nil => simp [matchSupported]
  | cons x xs ih =>
    by_cases h : version = x
    · simp [matchSupported, h]
    · simp [matchSupported, h, ih]

theorem scanVersions_iff (vs : List GroupVersionForDiscovery) :
    scanVersions vs = true ↔ ∃ v ∈ vs, v.Version ∈ supportedMetricsAPIVersions := by
  induction vs with
  | nil => simp [scanVersions]
  | cons x xs ih =>
    by_cases h : matchSupported x.Version supportedMetricsAPIVersions = true
    · have hm := (matchSupported_iff _ _).1 h
      simp [scanVersions, h, hm]
    · have hm : x.Version ∉ supportedMetricsAPIVersions :=
        fun hc => h ((matchSupported_iff _ _).2 hc)
      simp [scanVersions, h, hm, ih]

theorem scanGroups_iff (groupName : String) (gs : List APIGroup) :
    scanGroups groupName gs = true ↔
      ∃ g ∈ gs, g.Name = groupName ∧
        ∃ v ∈ g.Versions, v.Version ∈ supportedMetricsAPIVersions := by
  induction gs with
  | nil => simp [scanGroups]
  | cons x xs ih =>
    by_cases hn : x.Name = groupName
    · by_cases hv : scanVersions x.Versions = true
      · have hv' := (scanVersions_iff _).1 hv
        simp [scanGroups, hn, hv, hv']
      · have hv' : ¬ ∃ v ∈ x.Versions, v.Version ∈ supportedMetricsAPIVersions :=
          fun hc => hv ((scanVersions_iff _).2 hc)
        simp [scanGroups, hn, hv, hv', ih]
    · simp [scanGroups, hn, ih]

theorem ClusterHasMetrics_live (groupName : String) (k : Cluster) (s s1 : State)
    (cs : Clientset) (hd : Dial k s = ((Interface.clientset (some cs), none), s1)) :
    (ClusterHasMetrics groupName k s).1 =
      match k.ServerGroups s1.trace cs with
      | Except.error _ => Outcome.ret false
      | Except.ok apiGroups => Outcome.ret (scanGroups groupName apiGroups.Groups) := by
  unfold ClusterHasMetrics
  rw [hd]
  simp only
  cases k.ServerGroups s1.trace cs <;> rfl

theorem ListNS_nsListQueries_scoped (k : Cluster) (s : State)
    (hN : s.c.Config.ActiveNamespace ≠ "") :
    nsListQueries (ListNS k s).2.trace = nsListQueries s.trace := by
  have hcount := Dial_nsListQueries k s
  rw [← DialOrDie_snd] at hcount
  unfold ListNS
  split
  · rfl
  · simp only
    split
    · next heq => rw [heq] at hcount; exact hcount
    · next cs s2 heq =>
      rw [heq] at hcount
      rw [if_neg hN]
      split <;> simp [State.record, nsListQueries_snoc_get, hcount]
    · next heq => rw [heq] at hcount; exact hcount

theorem Dial_resolution_failure (k : Cluster) (s : State) (err : GoError)
    (hnil : s.c.api = Interface.nil) (hr : k.RESTConfig s.trace = Except.error err) :
    Dial k s = ((Interface.nil, some err), s.record Event.restConfig) ∧
      (Dial k s).2.c.api = Interface.nil := by
  have hrun : Dial k s = ((Interface.nil, some err), s.record Event.restConfig) := by
    unfold Dial
    rw [if_neg (by simp [hnil]), hr]
  exact ⟨hrun, by rw [hrun]; exact hnil⟩

/-! ## The claims -/

/-- Claim C1, as stated, fails at a concrete input.  A freshly built client talks to
a cluster that has no pod at the first list query and one pod at the second.  Both
`ListPods` calls succeed, the first returns the empty sequence and the second a
sequence of one pod, and the pod list query has been issued twice: the empty result
of the first call does not satisfy the guard `len(c.pods) != 0`. -/
theorem ListPods_twice_counterexample :
    (ListPods growingCluster (freshState cfgKeepAll)).1 = Outcome.ret (some [], none) ∧
    (ListPods growingCluster (ListPods growingCluster (freshState cfgKeepAll)).2).1
      = Outcome.ret (some [⟨"web", "a"⟩], none) ∧
    (ListPods growingCluster (freshState cfgKeepAll)).1
      ≠ (ListPods growingCluster (ListPods growingCluster (freshState cfgKeepAll)).2).1 ∧
    podQueries (freshState cfgKeepAll).trace = 0 ∧
    podQueries
      (ListPods growingCluster (ListPods growingCluster (freshState cfgKeepAll)).2).2.trace
      = 2 := by
  decide

/-- Claim C1, amended.  For every client and every answer of the control plane: if a
`ListPods` call succeeds with a sequence that is not empty, the next `ListPods` call
on the same client returns that same sequence with no error and leaves the state,
trace included, unchanged; across the two calls the pod list query is issued exactly
once when the pod cache was empty before the first call, and not at all when the
client already held a cache that is not empty. -/
theorem ListPods_twice_nonempty (k : Cluster) (s s1 : State) (r1 : Slice Pod)
    (h1 : ListPods k s = (Outcome.ret (r1, none), s1)) (hne : len r1 ≠ 0) :
    ListPods k s1 = (Outcome.ret (r1, none), s1) ∧
      podQueries (ListPods k s1).2.trace
        = podQueries s.trace + (if len s.c.pods = 0 then 1 else 0) := by
  have hcache : s1.c.pods = r1 ∧
      podQueries s1.trace = podQueries s.trace + (if len s.c.pods = 0 then 1 else 0) := by
    unfold ListPods at h1
    split at h1
    · next hh =>
      simp only [Prod.mk.injEq, Outcome.ret.injEq] at h1
      obtain ⟨⟨rfl, -⟩, rfl⟩ := h1
      simp [hh]
    · next hh =>
      have hz : len s.c.pods = 0 := by simpa using hh
      have hcount := Dial_podQueries k s
      rw [← DialOrDie_snd] at hcount
      simp only at h1
      split at h1
      · simp at h1
      · next cs s2 heq =>
        rw [heq] at hcount
        simp only at hcount
        split at h1
        · simp only [Prod.mk.injEq, Outcome.ret.injEq] at h1
          obtain ⟨⟨rfl, -⟩, -⟩ := h1
          simp [len] at hne
        · simp only [Prod.mk.injEq, Outcome.ret.injEq] at h1
          obtain ⟨⟨rfl, -⟩, rfl⟩ := h1
          simp [State.record, podQueries_snoc, hcount, hz]
      · simp at h1
  have hfull : ListPods k s1 = (Outcome.ret (r1, none), s1) := by
    unfold ListPods
    rw [if_pos (by rw [hcache.1]; exact hne), hcache.1]
  exact ⟨hfull, by rw [hfull]; exact hcache.2⟩

/-- Claim C1, witness: a fresh client on the healthy cluster, namespace `b` excluded;
the second call returns the three kept pods again and one query was issued. -/
theorem ListPods_twice_nonempty_witness :
    ListPods healthyCluster (ListPods healthyCluster (freshState cfgExcludeB)).2
      = (Outcome.ret (some [⟨"p1", "a"⟩, ⟨"p3", "c"⟩, ⟨"p4", "a"⟩], none),
          (ListPods healthyCluster (freshState cfgExcludeB)).2) ∧
    podQueries
      (ListPods healthyCluster (ListPods healthyCluster (freshState cfgExcludeB)).2).2.trace
      = 0 + 1 :=
  ListPods_twice_nonempty healthyCluster (freshState cfgExcludeB)
    (ListPods healthyCluster (freshState cfgExcludeB)).2
    (some [⟨"p1", "a"⟩, ⟨"p3", "c"⟩, ⟨"p4", "a"⟩]) rfl (by decide)

/-- Claim C2, as stated, fails at a concrete input.  A freshly built client with no
namespace scope talks to a cluster that lists no namespace at the first query and one
namespace at the second.  Both `ListNS` calls succeed, the first returns the empty
sequence and the second a sequence of one namespace, and the namespace query has been
issued twice: the empty result of the first call does not satisfy the guard
`len(c.namespaces) != 0`. -/
theorem ListNS_twice_counterexample :
    (ListNS growingCluster (freshState cfgKeepAll)).1 = Outcome.ret (some [], none) ∧
    (ListNS growingCluster (ListNS growingCluster (freshState cfgKeepAll)).2).1
      = Outcome.ret (some [⟨"a", "u1"⟩], none) ∧
    (ListNS growingCluster (freshState cfgKeepAll)).1
      ≠ (ListNS growingCluster (ListNS growingCluster (freshState cfgKeepAll)).2).1 ∧
    nsQueries (freshState cfgKeepAll).trace = 0 ∧
    nsQueries
      (ListNS growingCluster (ListNS growingCluster (freshState cfgKeepAll)).2).2.trace
      = 2 := by
  decide

/-- Claim C2, amended.  For every client, every active namespace scope and every
answer of the control plane: if a `ListNS` call succeeds with a sequence that is not
empty, the next `ListNS` call on the same client returns that same sequence with no
error and leaves the state, trace included, unchanged; across the two calls the
namespace query (list or get) is issued exactly once when the namespace cache was
empty before the first call, and not at all when the client already held a cache that
is not empty. -/
theorem ListNS_twice_nonempty (k : Cluster) (s s1 : State) (r1 : Slice Namespace)
    (h1 : ListNS k s = (Outcome.ret (r1, none), s1)) (hne : len r1 ≠ 0) :
    ListNS k s1 = (Outcome.ret (r1, none), s1) ∧
      nsQueries (ListNS k s1).2.trace
        = nsQueries s.trace + (if len s.c.namespaces = 0 then 1 else 0) := by
  have hcache : s1.c.namespaces = r1 ∧
      nsQueries s1.trace = nsQueries s.trace + (if len s.c.namespaces = 0 then 1 else 0) := by
    unfold ListNS at h1
    split at h1
    · next hh =>
      simp only [Prod.mk.injEq, Outcome.ret.injEq] at h1
      obtain ⟨⟨rfl, -⟩, rfl⟩ := h1
      simp [hh]
    · next hh =>
      have hz : len s.c.namespaces = 0 := by simpa using hh
      have hcount := Dial_nsQueries k s
      rw [← DialOrDie_snd] at hcount
      simp only at h1
      split at h1
      · simp at h1
      · next cs s2 heq =>
        rw [heq] at hcount
        simp only at hcount
        split at h1
        · split at h1
          · simp only [Prod.mk.injEq, Outcome.ret.injEq] at h1
            obtain ⟨⟨rfl, -⟩, -⟩ := h1
            simp [len] at hne
          · simp only [Prod.mk.injEq, Outcome.ret.injEq] at h1
            obtain ⟨⟨rfl, -⟩, rfl⟩ := h1
            simp [State.record, nsQueries_snoc_list, hcount, hz]
        · split at h1
          · simp only [Prod.mk.injEq, Outcome.ret.injEq] at h1
            obtain ⟨⟨rfl, -⟩, -⟩ := h1
            simp [len] at hne
          · simp only [Prod.mk.injEq, Outcome.ret.injEq] at h1
            obtain ⟨⟨rfl, -⟩, rfl⟩ := h1
            simp [State.record, nsQueries_snoc_get, hcount, hz]
      · simp at h1
  have hfull : ListNS k s1 = (Outcome.ret (r1, none), s1) := by
    unfold ListNS
    rw [if_pos (by rw [hcache.1]; exact hne), hcache.1]
  exact ⟨hfull, by rw [hfull]; exact hcache.2⟩

/-- Claim C2, witness: a fresh client scoped to `foo` on the healthy cluster; the
second call returns the singleton again and one query was issued. -/
theorem ListNS_twice_nonempty_witness :
    ListNS healthyCluster (ListNS healthyCluster (freshState cfgScopedFoo)).2
      = (Outcome.ret (some [⟨"foo", "u4"⟩], none),
          (ListNS healthyCluster (freshState cfgScopedFoo)).2) ∧
    nsQueries
      (ListNS healthyCluster (ListNS healthyCluster (freshState cfgScopedFoo)).2).2.trace
      = 0 + 1 :=
  ListNS_twice_nonempty healthyCluster (freshState cfgScopedFoo)
    (ListNS healthyCluster (freshState cfgScopedFoo)).2
    (some [⟨"foo", "u4"⟩]) rfl (by decide)

/-- Claim C3.  On a client whose pod cache is empty, when the dial yields a live handle
and the pod list query succeeds with items `L`, `ListPods` returns with no error
exactly `L` filtered, in order, by "namespace not excluded", and stores that same
sequence as the pod cache; the returned sequence is a subsequence of `L`, none of
its pods has an excluded namespace, and every pod of `L` whose namespace is not
excluded is in it. -/
theorem ListPods_first_call (k : Cluster) (s s1 : State) (cs : Clientset) (L : List Pod)
    (hc : len s.c.pods = 0)
    (hd : DialOrDie k s = (Outcome.ret (Interface.clientset (some cs)), s1))
    (hq : k.PodsList s1.trace cs s.c.Config.ActiveNamespace = Except.ok L) :
    ∃ kept : List Pod,
      kept = L.filter (fun po => !s.c.Config.ExcludedNS po.Namespace) ∧
      (ListPods k s).1 = Outcome.ret (some kept, none) ∧
      (ListPods k s).2.c.pods = some kept ∧
      kept.Sublist L ∧
      (∀ po ∈ kept, s.c.Config.ExcludedNS po.Namespace = false) ∧
      (∀ po ∈ L, s.c.Config.ExcludedNS po.Namespace = false → po ∈ kept) := by
  refine ⟨_, rfl, ?_, ?_, List.filter_sublist L, ?_, ?_⟩
  · rw [ListPods_query k s s1 cs hc hd, hq]
    simp only [keepPods_eq_filter]
  · rw [ListPods_query k s s1 cs hc hd, hq]
    simp only [keepPods_eq_filter]
  · intro po hpo
    simpa using (List.mem_filter.1 hpo).2
  · intro po hpo hex
    exact List.mem_filter.2 ⟨hpo, by simp [hex]⟩

/-- Claim C3, witness: pods in namespaces `a`, `b`, `c` with `b` excluded yield the
pods of `a` and `c` only, returned and cached. -/
theorem ListPods_first_call_witness :
    (ListPods healthyCluster (freshState cfgExcludeB)).1
      = Outcome.ret (some [⟨"p1", "a"⟩, ⟨"p3", "c"⟩, ⟨"p4", "a"⟩], none) ∧
    (ListPods healthyCluster (freshState cfgExcludeB)).2.c.pods
      = some [⟨"p1", "a"⟩, ⟨"p3", "c"⟩, ⟨"p4", "a"⟩] := by
  obtain ⟨kept, hk, hret, hcache, -⟩ :=
    ListPods_first_call healthyCluster (freshState cfgExcludeB)
      (DialOrDie healthyCluster (freshState cfgExcludeB)).2 ⟨1⟩
      [⟨"p1", "a"⟩, ⟨"p2", "b"⟩, ⟨"p3", "c"⟩, ⟨"p4", "a"⟩] rfl rfl rfl
  have hv : kept = [⟨"p1", "a"⟩, ⟨"p3", "c"⟩, ⟨"p4", "a"⟩] := by rw [hk]; decide
  rw [hret, hcache, hv]
  exact ⟨rfl, rfl⟩

/-- Claim C4.  On a client whose namespace cache is empty and whose active namespace
scope is a name `N` that is not the empty string, `ListNS` never issues the
cluster-wide list query; with a live handle it issues exactly one outgoing call, the
get query for `N`; if that query fails, `ListNS` returns that error and the nil
sequence; if it succeeds with namespace `n`, `ListNS` returns `[n]` unless the name
of `n` is excluded, so that, the control plane answering a get for `N` with the
namespace named `N` and `N` not being excluded, the result is the singleton `[n]`. -/
theorem ListNS_scoped (k : Cluster) (s : State)
    (hc : len s.c.namespaces = 0) (hN : s.c.Config.ActiveNamespace ≠ "") :
    nsListQueries (ListNS k s).2.trace = nsListQueries s.trace ∧
    ∀ cs s1, DialOrDie k s = (Outcome.ret (Interface.clientset (some cs)), s1) →
      (ListNS k s).2.trace = s1.trace ++ [Event.namespacesGet s.c.Config.ActiveNamespace] ∧
      (∀ err, k.NamespacesGet s1.trace cs s.c.Config.ActiveNamespace = Except.error err →
        (ListNS k s).1 = Outcome.ret (none, some err)) ∧
      (∀ n, k.NamespacesGet s1.trace cs s.c.Config.ActiveNamespace = Except.ok n →
        (ListNS k s).1
          = Outcome.ret (some (if s.c.Config.ExcludedNS n.Name then [] else [n]), none) ∧
        (n.Name = s.c.Config.ActiveNamespace →
          s.c.Config.ExcludedNS s.c.Config.ActiveNamespace = false →
          (ListNS k s).1 = Outcome.ret (some [n], none))) := by
  refine ⟨ListNS_nsListQueries_scoped k s hN, ?_⟩
  intro cs s1 hd
  refine ⟨?_, ?_, ?_⟩
  · rw [ListNS_trace k s s1 cs hc hd, if_neg hN]
  · intro err hq
    rw [ListNS_query k s s1 cs hc hd, if_neg hN, hq]
  · intro n hq
    have hmain : (ListNS k s).1
        = Outcome.ret (some (if s.c.Config.ExcludedNS n.Name then [] else [n]), none) := by
      rw [ListNS_query k s s1 cs hc hd, if_neg hN, hq]
      simp only [keepNamespaces_eq_filter]
      cases hx : s.c.Config.ExcludedNS n.Name <;> simp [hx]
    refine ⟨hmain, ?_⟩
    intro hname hex
    rw [hmain, hname, hex]
    simp

/-- Claim C4, witness: scope `foo` exists and yields the singleton, scope `ghost` does
not exist and yields the error of the get query, the only query issued. -/
theorem ListNS_scoped_witness :
    (ListNS healthyCluster (freshState cfgScopedFoo)).1
      = Outcome.ret (some [⟨"foo", "u4"⟩], none) ∧
    (ListNS healthyCluster (freshState cfgScopedGhost)).1
      = Outcome.ret (none, some "namespaces not found") ∧
    (ListNS healthyCluster (freshState cfgScopedGhost)).2.trace
      = [Event.restConfig, Event.newForConfig, Event.namespacesGet "ghost"] :=
  ⟨(((ListNS_scoped healthyCluster (freshState cfgScopedFoo) rfl (by decide)).2 ⟨1⟩
      (DialOrDie healthyCluster (freshState cfgScopedFoo)).2 rfl).2.2 ⟨"foo", "u4"⟩ rfl).2
      rfl rfl,
   ((ListNS_scoped healthyCluster (freshState cfgScopedGhost) rfl (by decide)).2 ⟨1⟩
      (DialOrDie healthyCluster (freshState cfgScopedGhost)).2 rfl).2.1
      "namespaces not found" rfl,
   ((ListNS_scoped healthyCluster (freshState cfgScopedGhost) rfl (by decide)).2 ⟨1⟩
      (DialOrDie healthyCluster (freshState cfgScopedGhost)).2 rfl).1⟩

/-- Claim C5.  On a client whose namespace cache is empty and whose active namespace
scope is the empty string, when the dial yields a live handle and the cluster-wide
list query succeeds with items `L`, `ListNS` returns with no error exactly `L`
filtered, in order, by "name not excluded": a subsequence of `L` holding no excluded
namespace and every namespace of `L` that is not excluded. -/
theorem ListNS_unscoped (k : Cluster) (s s1 : State) (cs : Clientset) (L : List Namespace)
    (hc : len s.c.namespaces = 0)
    (hscope : s.c.Config.ActiveNamespace = "")
    (hd : DialOrDie k s = (Outcome.ret (Interface.clientset (some cs)), s1))
    (hq : k.NamespacesList s1.trace cs = Except.ok L) :
    ∃ kept : List Namespace,
      kept = L.filter (fun ns => !s.c.Config.ExcludedNS ns.Name) ∧
      (ListNS k s).1 = Outcome.ret (some kept, none) ∧
      kept.Sublist L ∧
      (∀ ns ∈ kept, s.c.Config.ExcludedNS ns.Name = false) ∧
      (∀ ns ∈ L, s.c.Config.ExcludedNS ns.Name = false → ns ∈ kept) := by
  refine ⟨_, rfl, ?_, List.filter_sublist L, ?_, ?_⟩
  · rw [ListNS_query k s s1 cs hc hd, if_pos hscope, hq]
    simp only [keepNamespaces_eq_filter]
  · intro ns hns
    simpa using (List.mem_filter.1 hns).2
  · intro ns hns hex
    exact List.mem_filter.2 ⟨hns, by simp [hex]⟩

/-- Claim C5, witness: namespaces `a`, `b`, `c`, `foo` with `b` excluded yield `a`,
`c`, `foo`. -/
theorem ListNS_unscoped_witness :
    (ListNS healthyCluster (freshState cfgExcludeB)).1
      = Outcome.ret (some [⟨"a", "u1"⟩, ⟨"c", "u3"⟩, ⟨"foo", "u4"⟩], none) := by
  obtain ⟨kept, hk, hret, -⟩ :=
    ListNS_unscoped healthyCluster (freshState cfgExcludeB)
      (DialOrDie healthyCluster (freshState cfgExcludeB)).2 ⟨1⟩
      [⟨"a", "u1"⟩, ⟨"b", "u2"⟩, ⟨"c", "u3"⟩, ⟨"foo", "u4"⟩] rfl rfl rfl rfl
  have hv : kept = [⟨"a", "u1"⟩, ⟨"c", "u3"⟩, ⟨"foo", "u4"⟩] := by rw [hk]; decide
  rw [hret, hv]

/-- Claim C6.  `ClusterHasMetrics` returns `true` if and only if the dial succeeds with
a live handle, the discovery call succeeds, and some discovered group is named
`groupName` (the metrics group name) and has a version whose `Version` is an entry of
`supportedMetricsAPIVersions`, which is the single entry `v1beta1`.  It returns
`false` when the dial fails, when the discovery call fails, when no group has the
metrics group name, and when the groups of that name list no version `v1beta1`. -/
theorem ClusterHasMetrics_spec (groupName : String) (k : Cluster) (s : State) :
    ((ClusterHasMetrics groupName k s).1 = Outcome.ret true ↔
      ∃ cs s1 apiGroups,
        Dial k s = ((Interface.clientset (some cs), none), s1) ∧
        k.ServerGroups s1.trace cs = Except.ok apiGroups ∧
        ∃ g ∈ apiGroups.Groups, g.Name = groupName ∧
          ∃ v ∈ g.Versions, v.Version ∈ supportedMetricsAPIVersions) ∧
    supportedMetricsAPIVersions = ["v1beta1"] ∧
    (∀ h err s1, Dial k s = ((h, some err), s1) →
      (ClusterHasMetrics groupName k s).1 = Outcome.ret false) ∧
    (∀ cs s1 err, Dial k s = ((Interface.clientset (some cs), none), s1) →
      k.ServerGroups s1.trace cs = Except.error err →
      (ClusterHasMetrics groupName k s).1 = Outcome.ret false) ∧
    (∀ cs s1 apiGroups, Dial k s = ((Interface.clientset (some cs), none), s1) →
      k.ServerGroups s1.trace cs = Except.ok apiGroups →
      (∀ g ∈ apiGroups.Groups, g.Name ≠ groupName) →
      (ClusterHasMetrics groupName k s).1 = Outcome.ret false) ∧
    (∀ cs s1 apiGroups, Dial k s = ((Interface.clientset (some cs), none), s1) →
      k.ServerGroups s1.trace cs = Except.ok apiGroups →
      (∀ g ∈ apiGroups.Groups, g.Name = groupName →
        ∀ v ∈ g.Versions, v.Version ≠ "v1beta1") →
      (ClusterHasMetrics groupName k s).1 = Outcome.ret false) := by
  refine ⟨⟨?_, ?_⟩, rfl, ?_, ?_, ?_, ?_⟩
  · intro h
    unfold ClusterHasMetrics at h
    split at h
    · simp at h
    · next srv s1 heq =>
      simp only at h
      split at h
      · next cs =>
        split at h
        · simp at h
        · next apiGroups hq =>
          simp only [Outcome.ret.injEq] at h
          exact ⟨cs, s1, apiGroups, heq, hq, (scanGroups_iff _ _).1 h⟩
      · simp at h
  · rintro ⟨cs, s1, apiGroups, hd, hq, hex⟩
    rw [ClusterHasMetrics_live groupName k s s1 cs hd, hq]
    simp only [Outcome.ret.injEq]
    exact (scanGroups_iff _ _).2 hex
  · intro h err s1 hd
    unfold ClusterHasMetrics
    rw [hd]
  · intro cs s1 err hd hq
    rw [ClusterHasMetrics_live groupName k s s1 cs hd, hq]
  · intro cs s1 apiGroups hd hq hno
    rw [ClusterHasMetrics_live groupName k s s1 cs hd, hq]
    simp only [Outcome.ret.injEq]
    cases hsc : scanGroups groupName apiGroups.Groups with
    | false => rfl
    | true =>
      obtain ⟨g, hg, hname, -⟩ := (scanGroups_iff _ _).1 hsc
      exact absurd hname (hno g hg)
  · intro cs s1 apiGroups hd hq hno
    rw [ClusterHasMetrics_live groupName k s s1 cs hd, hq]
    simp only [Outcome.ret.injEq]
    cases hsc : scanGroups groupName apiGroups.Groups with
    | false => rfl
    | true =>
      obtain ⟨g, hg, hname, v, hv, hsup⟩ := (scanGroups_iff _ _).1 hsc
      have : v.Version = "v1beta1" := by simpa [supportedMetricsAPIVersions] using hsup
      exact absurd this (hno g hg hname v hv)

/-- Claim C6, witness: `true` on the healthy cluster, `false` on a discovery failure
and on a dial failure. -/
theorem ClusterHasMetrics_spec_witness :
    (ClusterHasMetrics "metrics.k8s.io" healthyCluster (freshState cfgKeepAll)).1
      = Outcome.ret true ∧
    (ClusterHasMetrics "metrics.k8s.io" refusingCluster (freshState cfgKeepAll)).1
      = Outcome.ret false ∧
    (ClusterHasMetrics "metrics.k8s.io" brokenDialCluster (freshState cfgKeepAll)).1
      = Outcome.ret false :=
  ⟨(ClusterHasMetrics_spec "metrics.k8s.io" healthyCluster (freshState cfgKeepAll)).1.2
      ⟨⟨1⟩, (Dial healthyCluster (freshState cfgKeepAll)).2, _, rfl, rfl,
        ⟨"metrics.k8s.io", [⟨"metrics.k8s.io/v1beta1", "v1beta1"⟩]⟩, by decide, rfl,
        ⟨"metrics.k8s.io/v1beta1", "v1beta1"⟩, by decide, by decide⟩,
   (ClusterHasMetrics_spec "metrics.k8s.io" refusingCluster (freshState cfgKeepAll)).2.2.2.1
      ⟨1⟩ (Dial refusingCluster (freshState cfgKeepAll)).2 "service unavailable" rfl rfl,
   (ClusterHasMetrics_spec "metrics.k8s.io" brokenDialCluster (freshState cfgKeepAll)).2.2.1
      Interface.nil "invalid configuration"
      (Dial brokenDialCluster (freshState cfgKeepAll)).2 rfl⟩

/-- Claim C7.  If a `Dial` call succeeds with handle `h`, the next `Dial` call on the
same client returns the identical handle `h` with no error and changes nothing; when
the client held no handle before the first call, the connector (one resolution of
the connection parameters, one construction of the handle) has been invoked exactly
once across the two calls.  More generally, whenever the client already holds a
handle, `Dial` returns that handle with no error and leaves the state, trace
included, unchanged, so the connector is not invoked. -/
theorem Dial_twice (k : Cluster) (s : State) :
    (∀ h s1, Dial k s = ((h, none), s1) →
      Dial k s1 = ((h, none), s1) ∧
      (s.c.api = Interface.nil →
        resolveCalls (Dial k s1).2.trace = resolveCalls s.trace + 1 ∧
        constructCalls (Dial k s1).2.trace = constructCalls s.trace + 1)) ∧
    (s.c.api ≠ Interface.nil → Dial k s = ((s.c.api, none), s)) := by
  refine ⟨?_, Dial_held k s⟩
  intro h s1 hd
  obtain ⟨hapi, hne, -⟩ := Dial_ok k s s1 h hd
  have h2 : Dial k s1 = ((h, none), s1) := by
    rw [Dial_held k s1 (by rw [hapi]; exact hne), hapi]
  refine ⟨h2, ?_⟩
  intro hnil
  rw [h2]
  unfold Dial at hd
  rw [if_neg (by simp [hnil])] at hd
  split at hd
  · simp at hd
  · simp only at hd
    split at hd
    · simp at hd
    · simp only [Prod.mk.injEq] at hd
      obtain ⟨-, rfl⟩ := hd
      simp [resolveCalls, constructCalls, State.record, List.countP_append]

/-- Claim C7, witness: a fresh client dials the healthy cluster twice. -/
theorem Dial_twice_witness :
    Dial healthyCluster (Dial healthyCluster (freshState cfgKeepAll)).2
      = ((Interface.clientset (some ⟨1⟩), none),
          (Dial healthyCluster (freshState cfgKeepAll)).2) ∧
    resolveCalls
      (Dial healthyCluster (Dial healthyCluster (freshState cfgKeepAll)).2).2.trace
      = 0 + 1 ∧
    constructCalls
      (Dial healthyCluster (Dial healthyCluster (freshState cfgKeepAll)).2).2.trace
      = 0 + 1 :=
  ⟨((Dial_twice healthyCluster (freshState cfgKeepAll)).1
      (Interface.clientset (some ⟨1⟩)) (Dial healthyCluster (freshState cfgKeepAll)).2 rfl).1,
   ((Dial_twice healthyCluster (freshState cfgKeepAll)).1
      (Interface.clientset (some ⟨1⟩)) (Dial healthyCluster (freshState cfgKeepAll)).2 rfl).2
      rfl⟩

/-- Claim C8.  With a live handle and an empty cache, if the query issued by
`ListPods` (the pod list) or by `ListNS` (the cluster-wide list when the scope is
empty, the get otherwise) fails, the call returns that error with the nil sequence,
the pod cache and the namespace cache are exactly what they were before the call,
and the next call of the same method issues the same query again. -/
theorem failed_query_not_cached (k : Cluster) (s s1 : State) (cs : Clientset)
    (hd : DialOrDie k s = (Outcome.ret (Interface.clientset (some cs)), s1)) :
    (∀ err, len s.c.pods = 0 →
      k.PodsList s1.trace cs s.c.Config.ActiveNamespace = Except.error err →
      (ListPods k s).1 = Outcome.ret (none, some err) ∧
      (ListPods k s).2.c.pods = s.c.pods ∧
      (ListPods k s).2.c.namespaces = s.c.namespaces ∧
      (ListPods k (ListPods k s).2).2.trace
        = (ListPods k s).2.trace ++ [Event.podsList s.c.Config.ActiveNamespace]) ∧
    (∀ err, len s.c.namespaces = 0 → s.c.Config.ActiveNamespace = "" →
      k.NamespacesList s1.trace cs = Except.error err →
      (ListNS k s).1 = Outcome.ret (none, some err) ∧
      (ListNS k s).2.c.pods = s.c.pods ∧
      (ListNS k s).2.c.namespaces = s.c.namespaces ∧
      (ListNS k (ListNS k s).2).2.trace
        = (ListNS k s).2.trace ++ [Event.namespacesList]) ∧
    (∀ err, len s.c.namespaces = 0 → s.c.Config.ActiveNamespace ≠ "" →
      k.NamespacesGet s1.trace cs s.c.Config.ActiveNamespace = Except.error err →
      (ListNS k s).1 = Outcome.ret (none, some err) ∧
      (ListNS k s).2.c.pods = s.c.pods ∧
      (ListNS k s).2.c.namespaces = s.c.namespaces ∧
      (ListNS k (ListNS k s).2).2.trace
        = (ListNS k s).2.trace
            ++ [Event.namespacesGet s.c.Config.ActiveNamespace]) := by
  obtain ⟨hapi, hne, hcfg, hpods, hnss⟩ := Dial_ok k s s1 _ (DialOrDie_ret k s s1 _ hd)
  refine ⟨?_, ?_, ?_⟩
  · intro err hc hq
    have hrun : ListPods k s = (Outcome.ret (none, some err),
        s1.record (Event.podsList s.c.Config.ActiveNamespace)) := by
      rw [ListPods_query k s s1 cs hc hd, hq]
    rw [hrun]
    refine ⟨rfl, hpods, hnss, ?_⟩
    have hd2 : DialOrDie k (s1.record (Event.podsList s.c.Config.ActiveNamespace))
        = (Outcome.ret (Interface.clientset (some cs)),
            s1.record (Event.podsList s.c.Config.ActiveNamespace)) := by
      rw [DialOrDie_held k _ (by simp [State.record, hapi])]
      simp [State.record, hapi]
    have := ListPods_trace k _ _ cs (by simpa [State.record, hpods] using hc) hd2
    simpa [State.record, hcfg] using this
  · intro err hc hscope hq
    have hrun : ListNS k s = (Outcome.ret (none, some err),
        s1.record Event.namespacesList) := by
      rw [ListNS_query k s s1 cs hc hd, if_pos hscope, hq]
    rw [hrun]
    refine ⟨rfl, hpods, hnss, ?_⟩
    have hd2 : DialOrDie k (s1.record Event.namespacesList)
        = (Outcome.ret (Interface.clientset (some cs)),
            s1.record Event.namespacesList) := by
      rw [DialOrDie_held k _ (by simp [State.record, hapi])]
      simp [State.record, hapi]
    have := ListNS_trace k _ _ cs (by simpa [State.record, hnss] using hc) hd2
    simpa [State.record, hcfg, hscope] using this
  · intro err hc hscope hq
    have hrun : ListNS k s = (Outcome.ret (none, some err),
        s1.record (Event.namespacesGet s.c.Config.ActiveNamespace)) := by
      rw [ListNS_query k s s1 cs hc hd, if_neg hscope, hq]
    rw [hrun]
    refine ⟨rfl, hpods, hnss, ?_⟩
    have hd2 : DialOrDie k (s1.record (Event.namespacesGet s.c.Config.ActiveNamespace))
        = (Outcome.ret (Interface.clientset (some cs)),
            s1.record (Event.namespacesGet s.c.Config.ActiveNamespace)) := by
      rw [DialOrDie_held k _ (by simp [State.record, hapi])]
      simp [State.record, hapi]
    have := ListNS_trace k _ _ cs (by simpa [State.record, hnss] using hc) hd2
    simpa [State.record, hcfg, hscope] using this

/-- Claim C8, witness: a fresh client on a cluster that refuses the pod list. -/
theorem failed_query_not_cached_witness :
    (ListPods refusingCluster (freshState cfgKeepAll)).1
      = Outcome.ret (none, some "pods is forbidden") ∧
    (ListPods refusingCluster (freshState cfgKeepAll)).2.c.pods = none ∧
    (ListPods refusingCluster (freshState cfgKeepAll)).2.c.namespaces = none ∧
    (ListPods refusingCluster (ListPods refusingCluster (freshState cfgKeepAll)).2).2.trace
      = (ListPods refusingCluster (freshState cfgKeepAll)).2.trace ++ [Event.podsList ""] :=
  (failed_query_not_cached refusingCluster (freshState cfgKeepAll)
    (DialOrDie refusingCluster (freshState cfgKeepAll)).2 ⟨1⟩ rfl).1
    "pods is forbidden" rfl rfl

/-- Claim C9.  `isSystemNS ns` is `true` if and only if `ns` is `kube-system` or
`kube-public`; it is `true` on `kube-system` and `false` on `default`.  The function
takes the name only, so no exclusion policy can influence it. -/
theorem isSystemNS_spec (ns : String) :
    (isSystemNS ns = true ↔ ns = "kube-system" ∨ ns = "kube-public") ∧
      isSystemNS "kube-system" = true ∧ isSystemNS "default" = false := by
  refine ⟨?_, by decide, by decide⟩
  simp only [isSystemNS, systemNS, isSystemNSIn]
  by_cases h1 : ns = "kube-system"
  · simp [h1]
  · by_cases h2 : ns = "kube-public"
    · simp [h2]
    · have h1' : ¬ "kube-system" = ns := fun h => h1 h.symm
      have h2' : ¬ "kube-public" = ns := fun h => h2 h.symm
      simp [h1, h2, h1', h2']

/-- Claim C10, the code at the failing input.  A fresh client holds no handle; the
connection parameters resolve and `NewForConfig` returns a nil pointer with an error.
`Dial` returns that error, yet the client now stores the nil pointer as its handle,
which does not compare equal to nil; the next `Dial` returns this stored handle with
a nil error and makes no outgoing call. -/
theorem Dial_failed_construction_keeps_handle :
    (freshState cfgKeepAll).c.api = Interface.nil ∧
    (Dial brokenDialCluster (freshState cfgKeepAll)).1
      = (Interface.nil, some "invalid configuration") ∧
    (Dial brokenDialCluster (freshState cfgKeepAll)).2.c.api = Interface.clientset none ∧
    (Dial brokenDialCluster (freshState cfgKeepAll)).2.c.api ≠ Interface.nil ∧
    (Dial brokenDialCluster (Dial brokenDialCluster (freshState cfgKeepAll)).2).1
      = (Interface.clientset none, none) ∧
    (Dial brokenDialCluster (Dial brokenDialCluster (freshState cfgKeepAll)).2).2.trace
      = (Dial brokenDialCluster (freshState cfgKeepAll)).2.trace := by
  decide

end K8s
